import Mathlib

/-!
Verification of the multilateration solver (`mlat/solver.py`).

The solver is shallowly embedded over `ℚ` (exact arithmetic standing in for
the floating-point numbers of the source).  External collaborators — the
geodesy module (`ecef_distance`, `ecef2llh`, `llh2ecef`), the square root
used for the sigma conversion, the configuration constants (`MIN_ALT`,
`MAX_ALT`, `SOLVER_MAXFEV`), and the propagation-speed constant `Cair` —
are fields of an environment structure `Env`, and the scipy optimizer is an
abstract function of type `Optimizer`, exactly the interface the source
consumes: it receives the objective closure, the 4-vector start state and
the iteration cap, and returns a result record (success flag, final
4-vector, optional inverse-Hessian estimate).
-/

/-- An ECEF position: a triple of coordinates in meters. -/
abbrev ECEF := ℚ × ℚ × ℚ

/-- A receiver; the solver only reads its `position` attribute. -/
structure Receiver where
  position : ECEF
deriving Repr, DecidableEq, Inhabited

/-- A raw measurement tuple `(receiver, timestamp, variance)` exactly as
supplied to `solve`. -/
abbrev Measurement := Receiver × ℚ × ℚ

/-- A converted per-measurement record: receiver ECEF position, pseudorange
in meters, and sigma in meters (the tuples built in `solve`, lines 91–94). -/
structure PRDatum where
  receiver_position : ECEF
  pseudorange : ℚ
  error : ℚ
deriving Repr, DecidableEq, Inhabited

/-- The 4-vector optimization state `(x, y, z, offset)`: the source builds
`x_guess = [ig[0], ig[1], ig[2], 0.0]` and unpacks results as
`(*position, offset) = x`. -/
structure XState where
  px : ℚ
  py : ℚ
  pz : ℚ
  offset : ℚ
deriving Repr, DecidableEq, Inhabited

/-- The position components of an optimization state. -/
def XState.pos (x : XState) : ECEF := (x.px, x.py, x.pz)

/-- A 4×4 matrix, the shape of the optimizer's inverse-Hessian estimate. -/
abbrev Mat4 := Fin 4 → Fin 4 → ℚ

/-- A 3×3 matrix, the shape of the returned position covariance. -/
abbrev Mat3 := Fin 3 → Fin 3 → ℚ

/-- What `scipy.optimize.minimize` returns, as consumed by `solve`:
the `success` flag, the final state `res.x`, and `res.hess_inv`
(which `solve` tests against `None`). -/
structure OptResult where
  success : Bool
  x : XState
  hess_inv : Option Mat4

/-- The abstract optimizer: takes the objective function, the start state
and the iteration cap (`options={'maxiter': config.SOLVER_MAXFEV}`) and
returns a result record.  Totality of this type encodes that the optimizer
signals failure through `success = false` rather than by raising. -/
abbrev Optimizer := (XState → ℚ) → XState → ℕ → OptResult

/-- The external collaborators consumed by the solver: the geodesy module,
`math.sqrt`, the configuration constants and the propagation speed. -/
structure Env where
  ecef_distance : ECEF → ECEF → ℚ
  ecef2llh : ECEF → ℚ × ℚ × ℚ
  llh2ecef : ℚ × ℚ × ℚ → ECEF
  sqrt : ℚ → ℚ
  Cair : ℚ
  MIN_ALT : ℚ
  MAX_ALT : ℚ
  SOLVER_MAXFEV : ℕ

/-- The objective (`_residuals`, solver.py lines 39–58): the sum of squared
residuals for the guess `x_guess` against `pseudorange_data` and, when
present, `altitude`.  `altitude_error` is only read when `altitude` is
supplied (the source would divide by `None` otherwise). -/
def _residuals (env : Env) (x_guess : XState) (pseudorange_data : List PRDatum)
    (altitude : Option ℚ) (altitude_error : ℚ) : ℚ :=
  let position_guess := x_guess.pos
  let offset := x_guess.offset
  let res := pseudorange_data.map (fun d =>
    let pseudorange_guess := env.ecef_distance d.receiver_position position_guess - offset
    (d.pseudorange - pseudorange_guess) / d.error)
  let res := match altitude with
    | none => res
    | some alt =>
        let altitude_guess := (env.ecef2llh position_guess).2.2
        res ++ [(alt - altitude_guess) / altitude_error]
  (res.map (fun r => r ^ 2)).sum

/-- The reference time: the timestamp of the first supplied measurement
(`base_timestamp = measurements[0][1]`, line 90; `solve` only reaches it
with a non-empty list). -/
def baseTimestamp (measurements : List Measurement) : ℚ :=
  (measurements.headD default).2.1

/-- The pseudorange conversion (lines 91–94): one datum per measurement, in
input order, with pseudorange `(timestamp − base_timestamp) * Cair` and
sigma `sqrt(variance) * Cair`. -/
def convertPseudoranges (env : Env) (measurements : List Measurement) : List PRDatum :=
  measurements.map (fun m =>
    { receiver_position := m.1.position
      pseudorange := (m.2.1 - baseTimestamp measurements) * env.Cair
      error := env.sqrt m.2.2 * env.Cair })

/-- The initial-guess altitude clamp (lines 82–88): convert to geodetic,
raise the altitude to `MIN_ALT` or lower it to `MAX_ALT` (two sequential
`if` statements, the second testing the possibly-updated altitude), and
convert back only in the branches that adjusted it. -/
def clampGuess (env : Env) (initial_guess : ECEF) : ECEF :=
  let glat := (env.ecef2llh initial_guess).1
  let glng := (env.ecef2llh initial_guess).2.1
  let galt := (env.ecef2llh initial_guess).2.2
  let galt1 := if galt < env.MIN_ALT then env.MIN_ALT else galt
  let ig1 := if galt < env.MIN_ALT then env.llh2ecef (glat, glng, galt1) else initial_guess
  let galt2 := if galt1 > env.MAX_ALT then env.MAX_ALT else galt1
  if galt1 > env.MAX_ALT then env.llh2ecef (glat, glng, galt2) else ig1

/-- The start state handed to the optimizer (line 95):
`x_guess = [initial_guess[0], initial_guess[1], initial_guess[2], 0.0]`. -/
def xGuess (p : ECEF) : XState :=
  { px := p.1, py := p.2.1, pz := p.2.2, offset := 0 }

/-- The objective closure passed to the optimizer: `_residuals` with
`args=(pseudorange_data, altitude, altitude_error)` bound. -/
def objectiveOf (env : Env) (measurements : List Measurement)
    (altitude : Option ℚ) (altitude_error : ℚ) : XState → ℚ :=
  fun x => _residuals env x (convertPseudoranges env measurements) altitude altitude_error

/-- A solver result: the estimated ECEF position and an optional 3×3
covariance estimate. -/
abbrev SolveResult := ECEF × Option Mat3

/-- The leading 3×3 principal submatrix `hess_inv[0:3, 0:3]`. -/
def leading3x3 (m : Mat4) : Mat3 :=
  fun i j => m i.castSucc j.castSucc

/-- Result validation and covariance extraction (lines 103–131): on
optimizer success, reject an offset outside `[0, 500e3]`; otherwise return
the position with the 3×3 block of `hess_inv` (or no covariance when
`hess_inv is None`).  Optimizer failure yields `none`. -/
def interpretResult (res : OptResult) : Option SolveResult :=
  if res.success then
    let position_est := res.x.pos
    let offset_est := res.x.offset
    if offset_est < 0 ∨ offset_est > 500000 then
      none
    else
      match res.hess_inv with
      | none => some (position_est, none)
      | some h => some (position_est, some (leading3x3 h))
  else
    none

/-- The entry point (`solve`, lines 62–131).  `Except.error` models the
raised `ValueError`; `Except.ok none` models a `return None`;
`Except.ok (some r)` models a returned `(ecef, ecef_cov)` pair. -/
def solve (env : Env) (opt : Optimizer) (measurements : List Measurement)
    (altitude : Option ℚ) (altitude_error : ℚ) (initial_guess : ECEF) :
    Except String (Option SolveResult) :=
  if measurements.length + (if altitude.isSome then 1 else 0) < 4 then
    Except.error "Not enough measurements available"
  else
    let ig := clampGuess env initial_guess
    let res := opt (objectiveOf env measurements altitude altitude_error) (xGuess ig)
      env.SOLVER_MAXFEV
    Except.ok (interpretResult res)

/-!
Concrete instances used by the witnesses: an environment with identity
geodetic conversions (so the round-trip law holds definitionally), a
constant receiver set, and constant optimizers returning fixed results.
-/

/-- A concrete environment for witnesses: identity geodetic conversions and
a receiver distance of 1,000,000 m between any two points. -/
def envW : Env where
  ecef_distance := fun _ _ => 1000000
  ecef2llh := id
  llh2ecef := id
  sqrt := fun q => q
  Cair := 340
  MIN_ALT := -1000
  MAX_ALT := 20000
  SOLVER_MAXFEV := 50

/-- A concrete receiver. -/
def recW : Receiver := ⟨(1, 2, 3)⟩

/-- Four concrete measurements (enough constraints without an altitude). -/
def msW : List Measurement := [(recW, 0, 1), (recW, 1, 1), (recW, 2, 1), (recW, 3, 1)]

/-- A concrete initial guess whose altitude (under `envW`) is in band. -/
def igW : ECEF := (0, 0, 0)

/-- An optimizer that ignores its inputs and returns a fixed result. -/
def optConst (r : OptResult) : Optimizer := fun _ _ _ => r

/-- A converged result with a negative offset estimate. -/
def rBad : OptResult := ⟨true, ⟨1, 2, 3, -1⟩, none⟩

/-- A non-converged result. -/
def rFail : OptResult := ⟨false, ⟨0, 0, 0, 0⟩, none⟩

/-- A concrete 4×4 inverse-Hessian estimate. -/
def hessW : Mat4 := fun i j => (i : ℚ) + 4 * (j : ℚ)

/-- A converged, plausible result carrying an inverse-Hessian estimate. -/
def rGood : OptResult := ⟨true, ⟨10, 20, 30, 100⟩, some hessW⟩

/-!  Helper lemmas shared by the theorems below. -/

/-- Once the input check passes, `solve` returns the interpretation of the
optimizer's result on the converted data and the clamped start state. -/
lemma solve_guarded_eq (env : Env) (opt : Optimizer) (measurements : List Measurement)
    (altitude : Option ℚ) (altitude_error : ℚ) (initial_guess : ECEF)
    (hlen : ¬ (measurements.length + (if altitude.isSome then 1 else 0) < 4)) :
    solve env opt measurements altitude altitude_error initial_guess =
      Except.ok (interpretResult (opt (objectiveOf env measurements altitude altitude_error)
        (xGuess (clampGuess env initial_guess)) env.SOLVER_MAXFEV)) := by
  simp only [solve, if_neg hlen]

/-- A successful result with an offset inside `[0, 500000]` is accepted and
its covariance is the 3×3 block of `hess_inv`, when present. -/
lemma interpretResult_accept (r : OptResult) (hsuc : r.success = true)
    (hlo : 0 ≤ r.x.offset) (hhi : r.x.offset ≤ 500000) :
    interpretResult r = some (r.x.pos, Option.map leading3x3 r.hess_inv) := by
  have hcond : ¬ (r.x.offset < 0 ∨ r.x.offset > 500000) := by push_neg; exact ⟨hlo, hhi⟩
  cases hx : r.hess_inv <;> simp [interpretResult, hsuc, hcond, hx]

/-- Claim C1: `solve` raises the `ValueError` (`InputError`) exactly when
`count(measurements) + (1 if altitude else 0) < 4`, for every environment,
optimizer, measurement content, altitude and initial guess; in particular
3 measurements with an altitude pass the check while 3 without do not. -/
theorem solve_raises_inputError_iff (env : Env) (opt : Optimizer)
    (measurements : List Measurement) (altitude : Option ℚ)
    (altitude_error : ℚ) (initial_guess : ECEF) :
    (∃ e, solve env opt measurements altitude altitude_error initial_guess =
        Except.error e) ↔
      measurements.length + (if altitude.isSome then 1 else 0) < 4 := by
  by_cases h : measurements.length + (if altitude.isSome then 1 else 0) < 4 <;>
    simp [solve, h]

/-- Claim C2: whenever the optimizer reports success but the estimated
offset is `< 0` or `> 500000`, `solve` returns `None` (modelled as
`Except.ok none`). -/
theorem solve_rejects_bad_offset (env : Env) (opt : Optimizer)
    (measurements : List Measurement) (altitude : Option ℚ)
    (altitude_error : ℚ) (initial_guess : ECEF) (r : OptResult)
    (hlen : ¬ (measurements.length + (if altitude.isSome then 1 else 0) < 4))
    (hr : opt (objectiveOf env measurements altitude altitude_error)
        (xGuess (clampGuess env initial_guess)) env.SOLVER_MAXFEV = r)
    (hsuc : r.success = true)
    (hbad : r.x.offset < 0 ∨ r.x.offset > 500000) :
    solve env opt measurements altitude altitude_error initial_guess =
      Except.ok none := by
  rw [solve_guarded_eq env opt measurements altitude altitude_error initial_guess hlen, hr]
  simp [interpretResult, hsuc, hbad]

/-- Witness for C2: a constant optimizer converging to offset estimate −1
on four measurements makes `solve` return no result. -/
theorem solve_rejects_bad_offset_witness :
    solve envW (optConst rBad) msW none 1 igW = Except.ok none :=
  solve_rejects_bad_offset envW (optConst rBad) msW none 1 igW rBad
    (by decide) rfl rfl (Or.inl (by norm_num [rBad]))

/-- Claim C7: whenever the input check passes and the optimizer does not
report success, `solve` returns `None` rather than raising (it yields
`Except.ok none`, never `Except.error`). -/
theorem solve_none_on_optimizer_failure (env : Env) (opt : Optimizer)
    (measurements : List Measurement) (altitude : Option ℚ)
    (altitude_error : ℚ) (initial_guess : ECEF) (r : OptResult)
    (hlen : ¬ (measurements.length + (if altitude.isSome then 1 else 0) < 4))
    (hr : opt (objectiveOf env measurements altitude altitude_error)
        (xGuess (clampGuess env initial_guess)) env.SOLVER_MAXFEV = r)
    (hfail : r.success = false) :
    solve env opt measurements altitude altitude_error initial_guess =
      Except.ok none := by
  rw [solve_guarded_eq env opt measurements altitude altitude_error initial_guess hlen, hr]
  simp [interpretResult, hfail]

/-- Witness for C7: a constant optimizer reporting failure on four
measurements makes `solve` return no result, without an error. -/
theorem solve_none_on_optimizer_failure_witness :
    solve envW (optConst rFail) msW none 1 igW = Except.ok none :=
  solve_none_on_optimizer_failure envW (optConst rFail) msW none 1 igW rFail
    (by decide) rfl rfl

/-- Claim C3: the objective returns the sum of squared residuals — one
residual `(pseudorange − (distance(receiver, pos) − offset)) / sigma` per
datum, plus one `(altitude − height(pos)) / altitude_error` exactly when an
altitude is supplied — and the returned scalar is always nonnegative. -/
theorem residuals_sum_of_squares (env : Env) (x : XState)
    (pseudorange_data : List PRDatum) (altitude : Option ℚ)
    (altitude_error : ℚ) :
    _residuals env x pseudorange_data altitude altitude_error =
      (pseudorange_data.map (fun d =>
        ((d.pseudorange -
            (env.ecef_distance d.receiver_position x.pos - x.offset)) / d.error) ^ 2)).sum
        + (match altitude with
           | none => 0
           | some alt => ((alt - (env.ecef2llh x.pos).2.2) / altitude_error) ^ 2) ∧
    0 ≤ _residuals env x pseudorange_data altitude altitude_error := by
  constructor
  · unfold _residuals
    cases altitude <;>
      simp [List.map_append, List.sum_append, List.map_map, Function.comp_def]
  · unfold _residuals
    cases altitude <;>
    · apply List.sum_nonneg
      intro a ha
      simp only [List.mem_map] at ha
      obtain ⟨b, _, rfl⟩ := ha
      exact sq_nonneg b

/-- On a non-empty list, the reference time is the head's timestamp. -/
lemma baseTimestamp_eq_head (measurements : List Measurement) (h : measurements ≠ []) :
    baseTimestamp measurements = (measurements.head h).2.1 := by
  cases measurements with
  | nil => exact absurd rfl h
  | cons m t => rfl

/-- Claim C4: the pseudorange conversion produces one datum per
measurement, in input order, with
`pseudorange = (timestamp − base_timestamp) * Cair` and
`sigma = sqrt(variance) * Cair`, where `base_timestamp` is the first
measurement's timestamp. -/
theorem convertPseudoranges_spec (env : Env) (measurements : List Measurement)
    (h : measurements ≠ []) (i : ℕ) (hi : i < measurements.length) :
    baseTimestamp measurements = (measurements.head h).2.1 ∧
    (convertPseudoranges env measurements).length = measurements.length ∧
    (convertPseudoranges env measurements)[i]? =
      some { receiver_position := (measurements.get ⟨i, hi⟩).1.position
             pseudorange :=
               ((measurements.get ⟨i, hi⟩).2.1 - (measurements.head h).2.1) * env.Cair
             error := env.sqrt (measurements.get ⟨i, hi⟩).2.2 * env.Cair } := by
  refine ⟨baseTimestamp_eq_head measurements h, by simp [convertPseudoranges], ?_⟩
  rw [convertPseudoranges, List.getElem?_map, List.getElem?_eq_getElem hi]
  simp [baseTimestamp_eq_head measurements h, List.get_eq_getElem]

/-- Witness for C4: on the four concrete measurements, the conversion of
the entry at index 1 has the stated base timestamp, length and fields. -/
theorem convertPseudoranges_spec_witness :
    baseTimestamp msW = (msW.head (by decide)).2.1 ∧
    (convertPseudoranges envW msW).length = msW.length ∧
    (convertPseudoranges envW msW)[1]? =
      some { receiver_position := (msW.get ⟨1, by decide⟩).1.position
             pseudorange := ((msW.get ⟨1, by decide⟩).2.1 - (msW.head (by decide)).2.1) * envW.Cair
             error := envW.sqrt (msW.get ⟨1, by decide⟩).2.2 * envW.Cair } :=
  convertPseudoranges_spec envW msW (by decide) 1 (by decide)

/-- When `MIN_ALT ≤ MAX_ALT`, the clamp has exactly three outcomes: convert
back with altitude `MIN_ALT`, convert back with altitude `MAX_ALT`, or pass
the guess through untouched. -/
lemma clampGuess_eq (env : Env) (ig : ECEF) (hord : env.MIN_ALT ≤ env.MAX_ALT) :
    clampGuess env ig =
      if (env.ecef2llh ig).2.2 < env.MIN_ALT then
        env.llh2ecef ((env.ecef2llh ig).1, (env.ecef2llh ig).2.1, env.MIN_ALT)
      else if env.MAX_ALT < (env.ecef2llh ig).2.2 then
        env.llh2ecef ((env.ecef2llh ig).1, (env.ecef2llh ig).2.1, env.MAX_ALT)
      else ig := by
  have hnm : ¬ (env.MAX_ALT < env.MIN_ALT) := not_lt.mpr hord
  simp only [clampGuess]
  by_cases h1 : (env.ecef2llh ig).2.2 < env.MIN_ALT <;> simp [h1, hnm]
  split_ifs with h2 <;> rfl

/-- Claim C5: the start position's geodetic altitude is clamped into
`[MIN_ALT, MAX_ALT]`: below the band it becomes `MIN_ALT`, above it becomes
`MAX_ALT` (read back through an inverse geodetic collaborator), and inside
the band the guess is passed through unchanged, with no round trip. -/
theorem clampGuess_spec (env : Env) (ig : ECEF)
    (hord : env.MIN_ALT ≤ env.MAX_ALT)
    (hinv : ∀ l, env.ecef2llh (env.llh2ecef l) = l) :
    ((env.ecef2llh ig).2.2 < env.MIN_ALT →
      (env.ecef2llh (clampGuess env ig)).2.2 = env.MIN_ALT) ∧
    (env.MAX_ALT < (env.ecef2llh ig).2.2 →
      (env.ecef2llh (clampGuess env ig)).2.2 = env.MAX_ALT) ∧
    (env.MIN_ALT ≤ (env.ecef2llh ig).2.2 → (env.ecef2llh ig).2.2 ≤ env.MAX_ALT →
      clampGuess env ig = ig) := by
  rw [clampGuess_eq env ig hord]
  refine ⟨fun h1 => ?_, fun h2 => ?_, fun hl hh => ?_⟩
  · rw [if_pos h1, hinv]
  · rw [if_neg (by linarith), if_pos h2, hinv]
  · rw [if_neg (by linarith), if_neg (by linarith)]

/-- A concrete initial guess whose altitude (under `envW`) is below the
band. -/
def igLow : ECEF := (7, 8, -5000)

/-- Witness for C5: under the identity geodetic collaborator, with an
initial guess at altitude −5000 and band `[-1000, 20000]`, the clamp
behaves as stated. -/
theorem clampGuess_spec_witness :
    (((envW.ecef2llh igLow).2.2 < envW.MIN_ALT →
      (envW.ecef2llh (clampGuess envW igLow)).2.2 = envW.MIN_ALT) ∧
    (envW.MAX_ALT < (envW.ecef2llh igLow).2.2 →
      (envW.ecef2llh (clampGuess envW igLow)).2.2 = envW.MAX_ALT) ∧
    (envW.MIN_ALT ≤ (envW.ecef2llh igLow).2.2 → (envW.ecef2llh igLow).2.2 ≤ envW.MAX_ALT →
      clampGuess envW igLow = igLow)) :=
  clampGuess_spec envW igLow (by norm_num [envW]) (fun l => rfl)

/-- Claim C6: for an accepted (successful, in-range-offset) result, `solve`
returns the position with no covariance when the optimizer supplied no
inverse-Hessian estimate, and with the leading 3×3 principal submatrix of
the inverse-Hessian estimate otherwise. -/
theorem solve_covariance_extraction (env : Env) (opt : Optimizer)
    (measurements : List Measurement) (altitude : Option ℚ)
    (altitude_error : ℚ) (initial_guess : ECEF) (r : OptResult)
    (hlen : ¬ (measurements.length + (if altitude.isSome then 1 else 0) < 4))
    (hr : opt (objectiveOf env measurements altitude altitude_error)
        (xGuess (clampGuess env initial_guess)) env.SOLVER_MAXFEV = r)
    (hsuc : r.success = true)
    (hlo : 0 ≤ r.x.offset) (hhi : r.x.offset ≤ 500000) :
    (r.hess_inv = none →
      solve env opt measurements altitude altitude_error initial_guess =
        Except.ok (some (r.x.pos, none))) ∧
    (∀ H, r.hess_inv = some H →
      solve env opt measurements altitude altitude_error initial_guess =
        Except.ok (some (r.x.pos, some (leading3x3 H)))) := by
  have base : solve env opt measurements altitude altitude_error initial_guess =
      Except.ok (some (r.x.pos, Option.map leading3x3 r.hess_inv)) := by
    rw [solve_guarded_eq env opt measurements altitude altitude_error initial_guess hlen, hr,
      interpretResult_accept r hsuc hlo hhi]
  refine ⟨fun hn => ?_, fun H hs => ?_⟩
  · rw [base, hn]; rfl
  · rw [base, hs]; rfl

/-- Witness for C6: a constant optimizer returning the plausible result
`rGood` (which carries the inverse-Hessian `hessW`) makes `solve` return
its position with the 3×3 block of `hessW`. -/
theorem solve_covariance_extraction_witness :
    ((rGood.hess_inv = none →
      solve envW (optConst rGood) msW none 1 igW =
        Except.ok (some (rGood.x.pos, none))) ∧
    (∀ H, rGood.hess_inv = some H →
      solve envW (optConst rGood) msW none 1 igW =
        Except.ok (some (rGood.x.pos, some (leading3x3 H))))) :=
  solve_covariance_extraction envW (optConst rGood) msW none 1 igW rGood
    (by decide) rfl rfl (by norm_num [rGood]) (by norm_num [rGood])

/-- Claim C8: the offset range check is the sole acceptance gate — a
successful result with offset in `[0, 500000]` is returned as a success
even when every receiver in the converted data is farther than 500 km from
the estimated position (the distance to contributing receivers is never
tested). -/
theorem solve_sole_gate_no_range_check (env : Env) (opt : Optimizer)
    (measurements : List Measurement) (altitude : Option ℚ)
    (altitude_error : ℚ) (initial_guess : ECEF) (r : OptResult)
    (hlen : ¬ (measurements.length + (if altitude.isSome then 1 else 0) < 4))
    (hr : opt (objectiveOf env measurements altitude altitude_error)
        (xGuess (clampGuess env initial_guess)) env.SOLVER_MAXFEV = r)
    (hsuc : r.success = true)
    (hlo : 0 ≤ r.x.offset) (hhi : r.x.offset ≤ 500000)
    (hfar : ∀ d ∈ convertPseudoranges env measurements,
      500000 < env.ecef_distance d.receiver_position r.x.pos) :
    ∃ cov, solve env opt measurements altitude altitude_error initial_guess =
      Except.ok (some (r.x.pos, cov)) :=
  ⟨Option.map leading3x3 r.hess_inv, by
    rw [solve_guarded_eq env opt measurements altitude altitude_error initial_guess hlen, hr,
      interpretResult_accept r hsuc hlo hhi]⟩

/-- Witness for C8: under `envW` every receiver is 1,000,000 m from every
point, yet the plausible result `rGood` is still returned as a success. -/
theorem solve_sole_gate_no_range_check_witness :
    ∃ cov, solve envW (optConst rGood) msW none 1 igW =
      Except.ok (some (rGood.x.pos, cov)) :=
  solve_sole_gate_no_range_check envW (optConst rGood) msW none 1 igW rGood
    (by decide) rfl rfl (by norm_num [rGood]) (by norm_num [rGood])
    (fun d _ => by norm_num [envW])

/-- Claim C10: the 4-vector start state handed to the optimizer always has
offset component exactly 0, for every environment and initial guess; the
initial guess supplies only the position components. -/
theorem xGuess_offset_zero (env : Env) (initial_guess : ECEF) :
    (xGuess (clampGuess env initial_guess)).offset = 0 := rfl
